import Mathlib

/-!
# Verification of the BLS time-series cache client (`src/core/lib/bls_client.py`)

A shallow embedding of the `BLSClient` caching HTTP client: the FIPS lookup
tables, cache state, TTL-based cache validity, batched fetching, keyword
search, and the state/county on-demand fetch paths.

Modelling conventions:
* Python `dict`s whose keys matter become association lists
  (`List (String × β)`) with first-match lookup (`alGet`) and
  replace-or-append insertion (`alInsert`), matching `dict` assignment.
* `datetime` values become a `DateTime` structure carrying a monotone
  timestamp in seconds (`t`) and a calendar `year`; `timedelta(hours=24)`
  becomes `cache_ttl = 24*60*60` seconds.  `datetime.now() - last < ttl`
  becomes `now.t - last.t < cache_ttl` with truncated `Nat` subtraction
  (a clock that went backwards yields `0 < ttl = true`, exactly as a
  negative `timedelta` compares less than a positive one).
* Network I/O (`requests.post` + `response.json()`) becomes an oracle
  `net : Request → FetchResult` passed to each operation; a
  `requests.RequestException` (including `raise_for_status`) is the
  `transportError` constructor, and a decoded JSON body is the
  `response` constructor with its optional `status`/`message` fields and
  `Results.series` list.
* Each operation returns, alongside its result, the list of outbound
  `Request`s it issued, so "issues zero outbound requests" is observable.
-/

set_option linter.unusedVariables false

namespace BLS

/-- `BLS_API_V1_URL` from the source. -/
def BLS_API_V1_URL : String := "https://api.bls.gov/publicAPI/v1/timeseries/data/"

/-- `BLS_API_V2_URL` from the source. -/
def BLS_API_V2_URL : String := "https://api.bls.gov/publicAPI/v2/timeseries/data/"

/-- The `STATE_FIPS` table: state name → 2-digit FIPS code. -/
def STATE_FIPS : List (String × String) := [
  ("Alabama", "01"), ("Alaska", "02"), ("Arizona", "04"), ("Arkansas", "05"),
  ("California", "06"), ("Colorado", "08"), ("Connecticut", "09"), ("Delaware", "10"),
  ("District of Columbia", "11"), ("Florida", "12"), ("Georgia", "13"), ("Hawaii", "15"),
  ("Idaho", "16"), ("Illinois", "17"), ("Indiana", "18"), ("Iowa", "19"),
  ("Kansas", "20"), ("Kentucky", "21"), ("Louisiana", "22"), ("Maine", "23"),
  ("Maryland", "24"), ("Massachusetts", "25"), ("Michigan", "26"), ("Minnesota", "27"),
  ("Mississippi", "28"), ("Missouri", "29"), ("Montana", "30"), ("Nebraska", "31"),
  ("Nevada", "32"), ("New Hampshire", "33"), ("New Jersey", "34"), ("New Mexico", "35"),
  ("New York", "36"), ("North Carolina", "37"), ("North Dakota", "38"), ("Ohio", "39"),
  ("Oklahoma", "40"), ("Oregon", "41"), ("Pennsylvania", "42"), ("Rhode Island", "44"),
  ("South Carolina", "45"), ("South Dakota", "46"), ("Tennessee", "47"), ("Texas", "48"),
  ("Utah", "49"), ("Vermont", "50"), ("Virginia", "51"), ("Washington", "53"),
  ("West Virginia", "54"), ("Wisconsin", "55"), ("Wyoming", "56"),
  ("Puerto Rico", "72")]

/-- `FIPS_TO_STATE = {v: k for k, v in STATE_FIPS.items()}`: FIPS code → state name. -/
def FIPS_TO_STATE : List (String × String) := STATE_FIPS.map (fun p => (p.2, p.1))

/-- The `STATE_ABBREVIATIONS` table: abbreviation → full state name. -/
def STATE_ABBREVIATIONS : List (String × String) := [
  ("AL", "Alabama"), ("AK", "Alaska"), ("AZ", "Arizona"), ("AR", "Arkansas"),
  ("CA", "California"), ("CO", "Colorado"), ("CT", "Connecticut"), ("DE", "Delaware"),
  ("DC", "District of Columbia"), ("FL", "Florida"), ("GA", "Georgia"), ("HI", "Hawaii"),
  ("ID", "Idaho"), ("IL", "Illinois"), ("IN", "Indiana"), ("IA", "Iowa"),
  ("KS", "Kansas"), ("KY", "Kentucky"), ("LA", "Louisiana"), ("ME", "Maine"),
  ("MD", "Maryland"), ("MA", "Massachusetts"), ("MI", "Michigan"), ("MN", "Minnesota"),
  ("MS", "Mississippi"), ("MO", "Missouri"), ("MT", "Montana"), ("NE", "Nebraska"),
  ("NV", "Nevada"), ("NH", "New Hampshire"), ("NJ", "New Jersey"), ("NM", "New Mexico"),
  ("NY", "New York"), ("NC", "North Carolina"), ("ND", "North Dakota"), ("OH", "Ohio"),
  ("OK", "Oklahoma"), ("OR", "Oregon"), ("PA", "Pennsylvania"), ("RI", "Rhode Island"),
  ("SC", "South Carolina"), ("SD", "South Dakota"), ("TN", "Tennessee"), ("TX", "Texas"),
  ("UT", "Utah"), ("VT", "Vermont"), ("VA", "Virginia"), ("WA", "Washington"),
  ("WV", "West Virginia"), ("WI", "Wisconsin"), ("WY", "Wyoming"), ("PR", "Puerto Rico")]

/-- The `LAUS_MEASURES` table: measure code → measure name. -/
def LAUS_MEASURES : List (String × String) := [
  ("03", "Unemployment Rate"),
  ("04", "Unemployment"),
  ("05", "Employment"),
  ("06", "Labor Force")]

/-- The `BLS_SERIES` static catalog: series id → display name. -/
def BLS_SERIES : List (String × String) := [
  ("CUUR0000SA0", "CPI - All Urban Consumers, All Items, US City Average"),
  ("SUUR0000SA0", "CPI - All Urban Wage Earners, All Items, US City Average"),
  ("CUUR0000SAF1", "CPI - Food"),
  ("CUUR0000SAH1", "CPI - Shelter"),
  ("CUUR0000SETA01", "CPI - New Vehicles"),
  ("CUUR0000SETB01", "CPI - Used Cars and Trucks"),
  ("CUUR0000SAM", "CPI - Medical Care"),
  ("CUUR0000SA0E", "CPI - Energy"),
  ("LNS14000000", "Unemployment Rate"),
  ("LNS12000000", "Employment Level"),
  ("LNS11000000", "Civilian Labor Force Level"),
  ("LNS13000000", "Unemployment Level"),
  ("LNS14000006", "Unemployment Rate - Black or African American"),
  ("LNS14000003", "Unemployment Rate - Hispanic or Latino"),
  ("LNS14000009", "Unemployment Rate - White"),
  ("CES0000000001", "Total Nonfarm Employment"),
  ("CES0500000001", "Total Private Employment"),
  ("CES1000000001", "Mining and Logging Employment"),
  ("CES2000000001", "Construction Employment"),
  ("CES3000000001", "Manufacturing Employment"),
  ("CES4000000001", "Trade, Transportation, and Utilities Employment"),
  ("CES5000000001", "Information Employment"),
  ("CES5500000001", "Financial Activities Employment"),
  ("CES6000000001", "Professional and Business Services Employment"),
  ("CES6500000001", "Education and Health Services Employment"),
  ("CES7000000001", "Leisure and Hospitality Employment"),
  ("CES8000000001", "Other Services Employment"),
  ("CES9000000001", "Government Employment"),
  ("CES0500000003", "Average Hourly Earnings - Total Private"),
  ("JTS000000000000000JOL", "Total Nonfarm Job Openings"),
  ("JTS000000000000000HIL", "Total Nonfarm Hires"),
  ("JTS000000000000000TSL", "Total Nonfarm Separations"),
  ("JTS000000000000000QUL", "Total Nonfarm Quits"),
  ("WPUFD4", "PPI - Finished Goods"),
  ("WPUFD49104", "PPI - Finished Consumer Foods"),
  ("WPUFD49116", "PPI - Finished Energy Goods")]

/-- First-match lookup in an association list (Python `d.get(k)` / `d[k]`). -/
def alGet {β : Type} (d : List (String × β)) (k : String) : Option β :=
  (d.find? (fun p => p.1 == k)).map (fun p => p.2)

/-- Python `dict` assignment `d[k] = v`: replace the value in place if the key
exists, otherwise append at the end (insertion order is preserved). -/
def alInsert {β : Type} (d : List (String × β)) (k : String) (v : β) :
    List (String × β) :=
  if d.any (fun p => p.1 == k) then
    d.map (fun p => if p.1 == k then (k, v) else p)
  else d ++ [(k, v)]

/-- A point in time: `t` is a monotone timestamp in seconds (for `timedelta`
comparisons), `year` the calendar year (for the default-year computation). -/
structure DateTime where
  t : Nat
  year : Int
deriving Repr, DecidableEq

/-- `self._cache_ttl = timedelta(hours=24)`, in seconds. -/
def cache_ttl : Nat := 24 * 60 * 60

/-- ASCII upper-casing of one character (the only case Python's `str.upper`
and the state tables exercise). -/
def pyCharUpper (c : Char) : Char :=
  if 'a' ≤ c ∧ c ≤ 'z' then Char.ofNat (c.toNat - 32) else c

/-- ASCII lower-casing of one character. -/
def pyCharLower (c : Char) : Char :=
  if 'A' ≤ c ∧ c ≤ 'Z' then Char.ofNat (c.toNat + 32) else c

/-- Python `str.upper()`. -/
def pyUpper (s : String) : String := String.mk (s.data.map pyCharUpper)

/-- Python `str.lower()`. -/
def pyLower (s : String) : String := String.mk (s.data.map pyCharLower)

/-- Python `str.strip()`: remove leading and trailing whitespace. -/
def pyStrip (s : String) : String :=
  String.mk (((s.data.dropWhile Char.isWhitespace).reverse.dropWhile
    Char.isWhitespace).reverse)

/-- Python `str.startswith(pre)`. -/
def pyStartsWith (s pre : String) : Bool := pre.data.isPrefixOf s.data

/-- One decoded observation as cached by the client: the record `dict` built in
`fetch_all_series` / `get_state_data` / `get_county_data`.  `extra` is the
optional additional key of the LAUS paths (`("state", name)` or
`("county", label)`); bulk-fetched records have none. -/
structure SeriesRecord where
  series_id : String
  series_name : String
  year : String
  period : String
  value : String
  footnotes : String
  extra : Option (String × String) := none
deriving Repr, DecidableEq

/-- The mutable part of a `BLSClient`: `self._cache` and `self._last_fetched`. -/
structure BLSState where
  cache : List (String × List SeriesRecord)
  last_fetched : Option DateTime
deriving Repr, DecidableEq

/-- The immutable part of a `BLSClient`, fixed by `__init__`:
`self._api_key`, `self._max_batch_size`, `self._api_url`,
`self._series_metadata` (never reassigned after construction). -/
structure BLSConfig where
  api_key : Option String
  max_batch_size : Nat
  api_url : String
  series_metadata : List (String × String)
deriving Repr, DecidableEq

/-- `BLSClient.__init__`: reads `BLS_API_KEY` from the environment (`env`,
`none` when unset; `os.getenv` defaults it to `""`), treats an empty or
placeholder (`startswith("<")`) value as absent, and derives batch size,
endpoint and the static catalog.  The cache starts empty with no fetch
timestamp. -/
def mkBLSClient (env : Option String) : BLSConfig × BLSState :=
  let api_key_raw := env.getD ""
  let api_key : Option String :=
    if api_key_raw ≠ "" ∧ ¬ pyStartsWith api_key_raw "<" then some api_key_raw else none
  ({ api_key := api_key,
     max_batch_size := if api_key.isSome then 50 else 25,
     api_url := if api_key.isSome then BLS_API_V2_URL else BLS_API_V1_URL,
     series_metadata := BLS_SERIES },
   { cache := [], last_fetched := none })

/-- `BLSClient.is_cache_valid`: false when there is no fetch timestamp or the
cache is empty; otherwise true iff the age of the timestamp is strictly
below the TTL. -/
def is_cache_valid (st : BLSState) (now : DateTime) : Bool :=
  match st.last_fetched with
  | none => false
  | some lf => if st.cache.isEmpty then false else now.t - lf.t < cache_ttl

/-- Python `str.zfill(width)`: left-pad with `'0'` up to `width`, keeping a
leading sign in front of the padding. -/
def zfill (width : Nat) (s : String) : String :=
  if width ≤ s.length then s
  else
    let (sign, rest) :=
      if pyStartsWith s "-" ∨ pyStartsWith s "+" then (s.take 1, s.drop 1) else ("", s)
    sign ++ String.mk (List.replicate (width - s.length) '0') ++ rest

/-- `BLSClient.resolve_state`: strip, then try abbreviation (upper-cased),
then full name (case-insensitive scan of `STATE_FIPS`), then the input
zero-filled to two digits as a FIPS code; `none` when nothing matches.
(In the abbreviation branch the source indexes `STATE_FIPS[full]`, which
can only raise `KeyError` if an abbreviation mapped to an unknown name;
every abbreviation's full name is a `STATE_FIPS` key, so the `none` arm of
that inner match is unreachable.) -/
def resolve_state (name_or_abbrev : String) : Option (String × String) :=
  let val := pyStrip name_or_abbrev
  let upper := pyUpper val
  match alGet STATE_ABBREVIATIONS upper with
  | some full =>
    match alGet STATE_FIPS full with
    | some fips => some (fips, full)
    | none => none
  | none =>
    match STATE_FIPS.find? (fun p => pyLower p.1 == pyLower val) with
    | some p => some (p.2, p.1)
    | none =>
      match alGet FIPS_TO_STATE (zfill 2 val) with
      | some state => some (zfill 2 val, state)
      | none => none

/-- `BLSClient.build_state_series_id`. -/
def build_state_series_id (fips : String) (measure : String := "03")
    (seasonal : String := "S") : String :=
  "LA" ++ seasonal ++ "ST" ++ fips ++ "00000000000" ++ measure

/-- `BLSClient.build_county_series_id`. -/
def build_county_series_id (county_fips : String) (measure : String := "03") : String :=
  "LAUCN" ++ county_fips ++ "00000000" ++ measure

/-- One outbound BLS API call: the payload built by `_build_payload` (series
ids plus start/end year). -/
structure Request where
  series_ids : List String
  start_year : Int
  end_year : Int
deriving Repr, DecidableEq

/-- One observation of one series in a decoded API response body.  The
`footnotes` list models `item.get("footnotes", [])`: `some txt` is a footnote
that is truthy and has a `"text"` key, `none` one that is falsy or lacks it. -/
structure ApiItem where
  year : String
  period : String
  value : String
  footnotes : List (Option String)
deriving Repr, DecidableEq

/-- One series of a decoded API response body (`Results.series[i]`). -/
structure ApiSeries where
  seriesID : String
  data : List ApiItem
deriving Repr, DecidableEq

/-- Outcome of `_fetch_batch`: `transportError` for a `requests.RequestException`
(network error or `raise_for_status`), else the decoded body with its optional
`status` and `message` fields and the `Results.series` list (empty when
`Results`/`series` is missing). -/
inductive FetchResult where
  | transportError (msg : String)
  | response (status : Option String) (message : Option String) (series : List ApiSeries)
deriving Repr, DecidableEq

/-- The year defaulting shared by `fetch_all_series`, `get_state_data` and
`get_county_data`: `end_year = str(datetime.now().year - 1)` when missing,
then `start_year = str(int(end_year) - 2)` when missing. -/
def resolve_years (now : DateTime) (start_year end_year : Option Int) : Int × Int :=
  let e := end_year.getD (now.year - 1)
  let s := start_year.getD (e - 2)
  (s, e)

/-- Flatten footnote texts: `", ".join(fn["text"] for fn in ... if fn and "text" in fn)`. -/
def joinFootnotes (fns : List (Option String)) : String :=
  String.intercalate ", " (fns.filterMap id)

/-- Decode one observation into the record `dict` cached by `fetch_all_series`
(series name looked up in the catalog with default `"Unknown"`). -/
def decodeItem (meta : List (String × String)) (sid : String) (item : ApiItem) :
    SeriesRecord :=
  { series_id := sid,
    series_name := (alGet meta sid).getD "Unknown",
    year := item.year,
    period := item.period,
    value := item.value,
    footnotes := joinFootnotes item.footnotes }

/-- Apply one decoded series of a successful chunk to the cache:
`self._cache[series_id] = records` (wholesale replacement). -/
def applySeries (meta : List (String × String))
    (c : List (String × List SeriesRecord)) (s : ApiSeries) :
    List (String × List SeriesRecord) :=
  alInsert c s.seriesID (s.data.map (decodeItem meta s.seriesID))

/-- The body of one iteration of the chunk loop in `fetch_all_series`: a
transport error or a non-`REQUEST_SUCCEEDED` status leaves the cache untouched
(log and continue); a successful response stores each returned series. -/
def processChunk (meta : List (String × String))
    (c : List (String × List SeriesRecord)) (res : FetchResult) :
    List (String × List SeriesRecord) :=
  match res with
  | .transportError _ => c
  | .response status _ series =>
    if status ≠ some "REQUEST_SUCCEEDED" then c
    else series.foldl (applySeries meta) c

/-- Fuel-driven worker for `chunkList` (fuel bounds the number of chunks; the
list length always suffices for a positive chunk size). -/
def chunkListAux {α : Type} : Nat → Nat → List α → List (List α)
  | 0, _, _ => []
  | _ + 1, _, [] => []
  | fuel + 1, n, x :: xs => (x :: xs).take n :: chunkListAux fuel n ((x :: xs).drop n)

/-- `all_series_ids[i:i+n] for i in range(0, len, n)`: split a list into
consecutive chunks of size at most `n`. -/
def chunkList {α : Type} (n : Nat) (xs : List α) : List (List α) :=
  chunkListAux xs.length n xs

/-- `BLSClient.fetch_all_series`: no-op when the cache is valid; otherwise
default the year range, partition the catalog's ids into chunks of at most
`max_batch_size`, issue one request per chunk sequentially (failed chunks are
skipped, see `processChunk`), then stamp `self._last_fetched = datetime.now()`
unconditionally.  Returns the new state and the list of requests issued. -/
def fetch_all_series (cfg : BLSConfig) (net : Request → FetchResult)
    (now : DateTime) (st : BLSState) (start_year : Option Int := none)
    (end_year : Option Int := none) : BLSState × List Request :=
  if is_cache_valid st now then (st, [])
  else
    let ys := resolve_years now start_year end_year
    let all_series_ids := cfg.series_metadata.map (fun p => p.1)
    let reqs := (chunkList cfg.max_batch_size all_series_ids).map
      (fun batch => { series_ids := batch, start_year := ys.1, end_year := ys.2 })
    let cache := reqs.foldl
      (fun c r => processChunk cfg.series_metadata c (net r)) st.cache
    ({ cache := cache, last_fetched := some now }, reqs)

/-- `BLSClient.get_series`: trigger `fetch_all_series()` with defaults, then
return `self._cache.get(series_id, [])`. -/
def get_series (cfg : BLSConfig) (net : Request → FetchResult) (now : DateTime)
    (st : BLSState) (series_id : String) :
    BLSState × List Request × List SeriesRecord :=
  let r := fetch_all_series cfg net now st
  (r.1, r.2, (alGet r.1.cache series_id).getD [])

/-- One entry of a `search_series` result list. -/
structure SearchResult where
  series_id : String
  series_name : String
  latest_value : Option String
  latest_period : String
deriving Repr, DecidableEq

/-- The `latest` record of one `search_series` match:
`self._cache.get(series_id, [{}])[0] if series_id in self._cache else {}`.
`ok none` is the empty `dict` (id absent from the cache), `ok (some r)` the
first cached record; when the id maps to an EMPTY list, `[0]` raises
`IndexError` (the `[{}]` default is dead code: it is only consulted when the
key is absent, and then the `else {}` branch is taken instead). -/
def latestOf (c : List (String × List SeriesRecord)) (sid : String) :
    Except String (Option SeriesRecord) :=
  match alGet c sid with
  | none => .ok none
  | some [] => .error "IndexError: list index out of range"
  | some (r :: _) => .ok (some r)

/-- Build one `search_series` result from the match and its `latest` record
(`latest.get("value")`, `f"{latest.get('year', '')} {latest.get('period', '')}".strip()`). -/
def mkSearchResult (sid name : String) (latest : Option SeriesRecord) : SearchResult :=
  { series_id := sid,
    series_name := name,
    latest_value := latest.map (fun r => r.value),
    latest_period :=
      ((latest.map (fun r => r.year)).getD "" ++ " " ++
        (latest.map (fun r => r.period)).getD "").trim }

/-- Python substring containment `needle in hay`, at the character level. -/
def strContains (hay needle : String) : Bool :=
  decide (needle.toList <:+: hay.toList)

/-- The match loop of `search_series` over the catalog: case-insensitive
substring match of the keyword against each display name; the whole call
raises (`Except.error`) as soon as one match's `latest` lookup raises. -/
def search_series_core (meta : List (String × String))
    (c : List (String × List SeriesRecord)) (keyword : String) :
    Except String (List SearchResult) :=
  let keyword_lower := pyLower keyword
  meta.foldl
    (fun acc p =>
      match acc with
      | .error e => .error e
      | .ok rs =>
        if strContains (pyLower p.2) keyword_lower then
          match latestOf c p.1 with
          | .error e => .error e
          | .ok latest => .ok (rs ++ [mkSearchResult p.1 p.2 latest])
        else .ok rs)
    (.ok [])

/-- `BLSClient.search_series`: trigger a full fetch, then run the match loop
over the (post-fetch) cache. -/
def search_series (cfg : BLSConfig) (net : Request → FetchResult) (now : DateTime)
    (st : BLSState) (keyword : String) :
    BLSState × List Request × Except String (List SearchResult) :=
  let r := fetch_all_series cfg net now st
  (r.1, r.2, search_series_core cfg.series_metadata r.1.cache keyword)

/-- One element of a `get_state_data` / `get_county_data` result list: either
an error-shaped mapping `{"error": msg}` or an ordinary record `dict`. -/
inductive OutItem where
  | err (msg : String)
  | record (r : SeriesRecord)
deriving Repr, DecidableEq

/-- Whether a result element is the error-shaped mapping (has the `"error"` key). -/
def OutItem.isError : OutItem → Bool
  | .err _ => true
  | .record _ => false

/-- Decode one observation of the on-demand LAUS paths: the record carries the
REQUESTED `series_id`, a composed display name, and the extra
`"state"`/`"county"` key. -/
def decodeLausItem (series_id series_name : String) (extra : String × String)
    (item : ApiItem) : SeriesRecord :=
  { series_id := series_id,
    series_name := series_name,
    year := item.year,
    period := item.period,
    value := item.value,
    footnotes := joinFootnotes item.footnotes,
    extra := some extra }

/-- The shared on-demand tail of `get_state_data` / `get_county_data`: cache
hit short-circuit, else one single-series request; a non-success status or a
transport error yields a one-element error list and leaves the state
untouched; success caches the decoded records wholesale and returns them. -/
def fetchLausSeries (cfg : BLSConfig) (net : Request → FetchResult)
    (now : DateTime) (st : BLSState) (series_id series_name : String)
    (extraKey extraVal : String) (start_year end_year : Option Int) :
    BLSState × List Request × List OutItem :=
  if ((alGet st.cache series_id).isSome ∧ is_cache_valid st now = true) then
    (st, [], ((alGet st.cache series_id).getD []).map OutItem.record)
  else
    let ys := resolve_years now start_year end_year
    let req : Request := { series_ids := [series_id], start_year := ys.1, end_year := ys.2 }
    match net req with
    | .transportError m =>
      (st, [req], [.err ("Request failed: " ++ m)])
    | .response status message series =>
      if status ≠ some "REQUEST_SUCCEEDED" then
        (st, [req], [.err ("BLS API error: " ++ message.getD "unknown")])
      else
        let records := series.flatMap
          (fun sr => sr.data.map (decodeLausItem series_id series_name (extraKey, extraVal)))
        ({ st with cache := alInsert st.cache series_id records },
         [req], records.map OutItem.record)

/-- `BLSClient.get_state_data`: resolve the state (error record on failure),
build the LAUS series id, then the cache-or-fetch tail. -/
def get_state_data (cfg : BLSConfig) (net : Request → FetchResult)
    (now : DateTime) (st : BLSState) (state : String) (measure : String := "03")
    (start_year : Option Int := none) (end_year : Option Int := none) :
    BLSState × List Request × List OutItem :=
  match resolve_state state with
  | none =>
    (st, [], [.err ("Unknown state: '" ++ state ++
      "'. Use a state name, abbreviation, or FIPS code.")])
  | some (fips, state_name) =>
    let series_id := build_state_series_id fips measure
    let measure_name := (alGet LAUS_MEASURES measure).getD measure
    fetchLausSeries cfg net now st series_id (state_name ++ " - " ++ measure_name)
      "state" state_name start_year end_year

/-- `BLSClient.get_county_data`: normalise the FIPS input
(`strip().zfill(5)`), derive the label (`county_name or f"County FIPS ..."`),
build the LAUS series id, then the cache-or-fetch tail. -/
def get_county_data (cfg : BLSConfig) (net : Request → FetchResult)
    (now : DateTime) (st : BLSState) (county_fips : String)
    (county_name : String := "") (measure : String := "03")
    (start_year : Option Int := none) (end_year : Option Int := none) :
    BLSState × List Request × List OutItem :=
  let fips5 := zfill 5 (pyStrip county_fips)
  let series_id := build_county_series_id fips5 measure
  let measure_name := (alGet LAUS_MEASURES measure).getD measure
  let label := if county_name ≠ "" then county_name else "County FIPS " ++ fips5
  fetchLausSeries cfg net now st series_id (label ++ " - " ++ measure_name)
    "county" label start_year end_year

/-! ## Derived views used by the specification theorems -/

/-- Stage 1 of `resolve_state`: the abbreviation match (with the
`STATE_FIPS[full]` index of the source). -/
def matchAbbrev (val : String) : Option (String × String) :=
  match alGet STATE_ABBREVIATIONS (pyUpper val) with
  | some full => (alGet STATE_FIPS full).map (fun fips => (fips, full))
  | none => none

/-- Stage 2 of `resolve_state`: the case-insensitive full-name scan. -/
def matchFullName (val : String) : Option (String × String) :=
  (STATE_FIPS.find? (fun p => pyLower p.1 == pyLower val)).map (fun p => (p.2, p.1))

/-- Stage 3 of `resolve_state`: the input zero-filled to 2 digits read as a
FIPS code. -/
def matchFips (val : String) : Option (String × String) :=
  (alGet FIPS_TO_STATE (zfill 2 val)).map (fun state => (zfill 2 val, state))

/-- The series a chunk's outcome contributes to the cache: none for a
transport error or a non-success status, all returned series otherwise. -/
def chunkSeries : FetchResult → List ApiSeries
  | .transportError _ => []
  | .response status _ series =>
    if status ≠ some "REQUEST_SUCCEEDED" then [] else series

/-- Store a list of decoded series into the cache, in order. -/
def applyAll (meta : List (String × String))
    (c : List (String × List SeriesRecord)) (series : List ApiSeries) :
    List (String × List SeriesRecord) :=
  series.foldl (applySeries meta) c

/-- All series stored by one `fetch_all_series` run, in storage order:
the successful chunks' response series, concatenated. -/
def respondedSeries (cfg : BLSConfig) (net : Request → FetchResult)
    (now : DateTime) (st : BLSState) (start_year end_year : Option Int) :
    List ApiSeries :=
  (fetch_all_series cfg net now st start_year end_year).2.flatMap
    (fun r => chunkSeries (net r))

/-- The requests a (non-short-circuited) `fetch_all_series` run issues. -/
def fetchReqs (cfg : BLSConfig) (now : DateTime)
    (start_year end_year : Option Int) : List Request :=
  (chunkList cfg.max_batch_size (cfg.series_metadata.map (fun p => p.1))).map
    (fun batch =>
      { series_ids := batch,
        start_year := (resolve_years now start_year end_year).1,
        end_year := (resolve_years now start_year end_year).2 })


/-! ## Concrete scenarios shared by witnesses -/

/-- A network on which every request fails with a transport error. -/
def failNet : Request → FetchResult := fun _ => .transportError "connection refused"

/-- A network on which every request succeeds and returns one observation of
the national unemployment-rate series. -/
def demoNet : Request → FetchResult := fun _ =>
  .response (some "REQUEST_SUCCEEDED") none
    [{ seriesID := "LNS14000000",
       data := [{ year := "2023", period := "M12", value := "3.7", footnotes := [] }] }]

/-- A network whose successful response lists one series with no observations
(a plausible API reply for a year range with no data). -/
def emptyDataNet : Request → FetchResult := fun _ =>
  .response (some "REQUEST_SUCCEEDED") none [{ seriesID := "LNS14000000", data := [] }]

/-- Agreement of `resolve_state` across spellings of one state: abbreviation,
full name, FIPS code, lower-cased variants, and whitespace-padded variants all
resolve to the same `(fips, full_name)` pair. -/
def resolveAgreesAt (ab full fips : String) : Bool :=
  resolve_state ab == some (fips, full) &&
  resolve_state full == some (fips, full) &&
  resolve_state fips == some (fips, full) &&
  resolve_state (pyLower ab) == some (fips, full) &&
  resolve_state (pyLower full) == some (fips, full) &&
  resolve_state (" " ++ full ++ "  ") == some (fips, full) &&
  resolve_state (" " ++ fips ++ " ") == some (fips, full)

instance {e a : Type} [DecidableEq e] [DecidableEq a] : DecidableEq (Except e a) := fun
  | .error x, .error y =>
    if h : x = y then .isTrue (by rw [h]) else .isFalse (by simp [h])
  | .error _, .ok _ => .isFalse (by simp)
  | .ok _, .error _ => .isFalse (by simp)
  | .ok x, .ok y =>
    if h : x = y then .isTrue (by rw [h]) else .isFalse (by simp [h])

/-! ## Association-list lemmas -/

theorem find?_map_replace {β : Type} (k : String) (v : β) :
    ∀ d : List (String × β), d.any (fun p => p.1 == k) = true →
      ((d.map (fun p => if p.1 == k then (k, v) else p)).find?
        (fun p => p.1 == k)) = some (k, v) := by
  intro d
  induction d with
  | nil => intro h; simp at h
  | cons p d ih =>
    intro h
    cases hp : (p.1 == k) with
    | true => simp only [List.map_cons, if_pos hp, List.find?, beq_self_eq_true]
    | false =>
      have hmap : (if (p.1 == k) = true then (k, v) else p) = p := by simp [hp]
      rw [List.map_cons, hmap]
      simp only [List.find?, hp]
      simp only [List.any_cons, Bool.or_eq_true, hp] at h
      exact ih (h.resolve_left (by simp))

theorem find?_map_replace_ne {β : Type} (k k' : String) (v : β) (hne : k' ≠ k) :
    ∀ d : List (String × β),
      ((d.map (fun p => if p.1 == k then (k, v) else p)).find?
        (fun p => p.1 == k')) = d.find? (fun p => p.1 == k') := by
  intro d
  induction d with
  | nil => rfl
  | cons p d ih =>
    cases hp : (p.1 == k) with
    | true =>
      have hpk : p.1 = k := by simpa using hp
      have h1 : (k == k') = false := by
        simp [show k ≠ k' from fun h => hne h.symm]
      have h2 : (p.1 == k') = false := by
        simp [hpk, show k ≠ k' from fun h => hne h.symm]
      simp only [List.map_cons, if_pos hp, List.find?, h1, h2]
      exact ih
    | false =>
      have hmap : (if (p.1 == k) = true then (k, v) else p) = p := by simp [hp]
      rw [List.map_cons, hmap]
      cases hpk' : (p.1 == k') with
      | true => simp only [List.find?, hpk']
      | false =>
        simp only [List.find?, hpk']
        exact ih

theorem alGet_alInsert_self {β : Type} (d : List (String × β)) (k : String) (v : β) :
    alGet (alInsert d k v) k = some v := by
  unfold alGet alInsert
  by_cases h : d.any (fun p => p.1 == k)
  · rw [if_pos h, find?_map_replace k v d h]
    rfl
  · rw [if_neg h]
    have hnone : d.find? (fun p => p.1 == k) = none := by
      rw [List.find?_eq_none]
      intro p hp hc
      exact h (List.any_eq_true.mpr ⟨p, hp, hc⟩)
    rw [List.find?_append, hnone]
    simp only [Option.none_orElse, List.find?, beq_self_eq_true]
    rfl

theorem alGet_alInsert_ne {β : Type} (d : List (String × β)) (k k' : String) (v : β)
    (hne : k' ≠ k) : alGet (alInsert d k v) k' = alGet d k' := by
  unfold alGet alInsert
  by_cases h : d.any (fun p => p.1 == k)
  · rw [if_pos h, find?_map_replace_ne k k' v hne d]
  · rw [if_neg h, List.find?_append]
    have hkk' : (k == k') = false := by
      simp [show k ≠ k' from fun h => hne h.symm]
    have h1 : ([(k, v)].find? (fun p => p.1 == k')) = none := by
      simp only [List.find?, hkk']
    rw [h1]
    cases d.find? (fun p => p.1 == k') <;> rfl

/-! ## Chunking lemmas -/

theorem chunkListAux_length_le {α : Type} (n : Nat) :
    ∀ (fuel : Nat) (xs : List α), ∀ c ∈ chunkListAux fuel n xs, c.length ≤ n := by
  intro fuel
  induction fuel with
  | zero => intro xs c hc; simp [chunkListAux] at hc
  | succ f ih =>
    intro xs c hc
    match xs with
    | [] => simp [chunkListAux] at hc
    | x :: xs' =>
      simp only [chunkListAux, List.mem_cons] at hc
      rcases hc with hc | hc
      · subst hc
        simp only [List.length_take]
        exact Nat.min_le_left _ _
      · exact ih _ c hc

theorem chunkList_length_le {α : Type} (n : Nat) (xs : List α) :
    ∀ c ∈ chunkList n xs, c.length ≤ n :=
  chunkListAux_length_le n xs.length xs

theorem chunkList_ne_nil {α : Type} (n : Nat) (xs : List α) (hxs : xs ≠ []) :
    chunkList n xs ≠ [] := by
  match xs with
  | [] => exact absurd rfl hxs
  | x :: xs' => simp [chunkList, chunkListAux]

theorem chunkListAux_congr {α : Type} {n : Nat} (hn : 0 < n) :
    ∀ (f1 f2 : Nat) (xs : List α), xs.length ≤ f1 → xs.length ≤ f2 →
      chunkListAux f1 n xs = chunkListAux f2 n xs := by
  intro f1
  induction f1 with
  | zero =>
    intro f2 xs h1 h2
    have : xs = [] := List.length_eq_zero.mp (Nat.le_zero.mp h1)
    subst this
    cases f2 <;> rfl
  | succ f ih =>
    intro f2 xs h1 h2
    match xs with
    | [] => cases f2 <;> rfl
    | x :: xs' =>
      match f2 with
      | 0 => simp at h2
      | g + 1 =>
        have hdroplen : ((x :: xs').drop n).length ≤ xs'.length := by
          simp only [List.length_drop, List.length_cons]
          omega
        have hf : xs'.length ≤ f := by simpa using h1
        have hg : xs'.length ≤ g := by simpa using h2
        simp only [chunkListAux]
        rw [ih g _ (Nat.le_trans hdroplen hf) (Nat.le_trans hdroplen hg)]

theorem chunkListAux_fuel {α : Type} {n : Nat} (hn : 0 < n)
    (fuel : Nat) (xs : List α) (h : xs.length ≤ fuel) :
    chunkListAux fuel n xs = chunkListAux xs.length n xs :=
  chunkListAux_congr hn fuel xs.length xs h (Nat.le_refl _)

theorem chunkList_step {α : Type} {n : Nat} (hn : 0 < n) (xs : List α) (hxs : xs ≠ []) :
    chunkList n xs = xs.take n :: chunkList n (xs.drop n) := by
  match xs with
  | [] => exact absurd rfl hxs
  | x :: xs' =>
    show chunkListAux (x :: xs').length n (x :: xs') = _
    simp only [List.length_cons, chunkListAux]
    rw [chunkListAux_fuel hn xs'.length ((x :: xs').drop n)
      (by simp only [List.length_drop, List.length_cons]; omega)]
    rfl

/-! ## Cache-update lemmas -/

theorem processChunk_eq_applyAll (meta : List (String × String))
    (c : List (String × List SeriesRecord)) (res : FetchResult) :
    processChunk meta c res = applyAll meta c (chunkSeries res) := by
  cases res with
  | transportError m => rfl
  | response status msg series =>
    simp only [processChunk, chunkSeries]
    by_cases h : status = some "REQUEST_SUCCEEDED"
    · simp [h, applyAll]
    · simp [h, applyAll]

theorem applyAll_append (meta : List (String × String))
    (c : List (String × List SeriesRecord)) (l1 l2 : List ApiSeries) :
    applyAll meta c (l1 ++ l2) = applyAll meta (applyAll meta c l1) l2 := by
  simp [applyAll, List.foldl_append]

theorem foldl_processChunk (meta : List (String × String))
    (f : Request → FetchResult) :
    ∀ (reqs : List Request) (c : List (String × List SeriesRecord)),
      reqs.foldl (fun c r => processChunk meta c (f r)) c
        = applyAll meta c (reqs.flatMap (fun r => chunkSeries (f r))) := by
  intro reqs
  induction reqs with
  | nil => intro c; rfl
  | cons r reqs ih =>
    intro c
    simp only [List.foldl_cons, List.flatMap_cons, applyAll_append]
    rw [ih, processChunk_eq_applyAll]

theorem alGet_applyAll_not_mem (meta : List (String × String)) (sid : String) :
    ∀ (series : List ApiSeries) (c : List (String × List SeriesRecord)),
      sid ∉ series.map (fun s => s.seriesID) →
      alGet (applyAll meta c series) sid = alGet c sid := by
  intro series
  induction series with
  | nil => intro c _; rfl
  | cons s series ih =>
    intro c h
    simp only [List.map_cons, List.mem_cons, not_or] at h
    show alGet (applyAll meta (applySeries meta c s) series) sid = _
    rw [ih _ h.2, applySeries, alGet_alInsert_ne _ _ _ _ h.1]

theorem alGet_applyAll_last (meta : List (String × String))
    (c : List (String × List SeriesRecord)) (l1 l2 : List ApiSeries) (s : ApiSeries)
    (h2 : s.seriesID ∉ l2.map (fun q => q.seriesID)) :
    alGet (applyAll meta c (l1 ++ s :: l2)) s.seriesID
      = some (s.data.map (decodeItem meta s.seriesID)) := by
  have : l1 ++ s :: l2 = (l1 ++ [s]) ++ l2 := by simp
  rw [this, applyAll_append, alGet_applyAll_not_mem meta _ l2 _ h2,
    applyAll_append]
  show alGet (applySeries meta (applyAll meta c l1) s) s.seriesID = _
  rw [applySeries, alGet_alInsert_self]

/-! ## `fetch_all_series` structural lemmas -/

theorem is_cache_valid_iff (st : BLSState) (now : DateTime) :
    is_cache_valid st now = true ↔
      st.cache ≠ [] ∧ ∃ lf, st.last_fetched = some lf ∧ now.t - lf.t < cache_ttl := by
  cases hlf : st.last_fetched with
  | none => simp [is_cache_valid, hlf]
  | some lf =>
    by_cases hc : st.cache.isEmpty
    · simp [is_cache_valid, hlf, hc, List.isEmpty_iff.mp hc]
    · have hne : st.cache ≠ [] := fun h => hc (by simp [h])
      simp only [is_cache_valid, hlf, if_neg hc, decide_eq_true_eq, Option.some.injEq]
      constructor
      · intro h; exact ⟨hne, lf, rfl, h⟩
      · rintro ⟨-, lf', hlf', h⟩
        subst hlf'; exact h

theorem fetch_all_series_valid (cfg : BLSConfig) (net : Request → FetchResult)
    (now : DateTime) (st : BLSState) (sy ey : Option Int)
    (h : is_cache_valid st now = true) :
    fetch_all_series cfg net now st sy ey = (st, []) := by
  simp [fetch_all_series, h]

theorem fetch_all_series_invalid (cfg : BLSConfig) (net : Request → FetchResult)
    (now : DateTime) (st : BLSState) (sy ey : Option Int)
    (h : is_cache_valid st now = false) :
    fetch_all_series cfg net now st sy ey =
      ({ cache := (fetchReqs cfg now sy ey).foldl
           (fun c r => processChunk cfg.series_metadata c (net r)) st.cache,
         last_fetched := some now },
       fetchReqs cfg now sy ey) := by
  simp [fetch_all_series, h, fetchReqs]

theorem fetch_all_series_cache_eq (cfg : BLSConfig) (net : Request → FetchResult)
    (now : DateTime) (st : BLSState) (sy ey : Option Int) :
    (fetch_all_series cfg net now st sy ey).1.cache
      = applyAll cfg.series_metadata st.cache (respondedSeries cfg net now st sy ey) := by
  by_cases h : is_cache_valid st now = true
  · rw [respondedSeries, fetch_all_series_valid cfg net now st sy ey h]
    rfl
  · have h' : is_cache_valid st now = false := by
      cases hb : is_cache_valid st now
      · rfl
      · exact absurd hb h
    rw [respondedSeries, fetch_all_series_invalid cfg net now st sy ey h',
      foldl_processChunk]

/-! ## Claim theorems -/

/-- C1: `fetch_all_series` issues zero outbound requests and returns with the
state unchanged iff `is_cache_valid` holds; `is_cache_valid` holds iff the
cache is non-empty AND a last-fetched timestamp exists whose age is strictly
below the 24-hour TTL (so an empty cache is invalid regardless of the
timestamp); and a second `fetch_all_series` call within the TTL window after a
fetch that left a non-empty cache issues zero outbound requests. -/
theorem fetch_all_series_cache_short_circuit
    (cfg : BLSConfig) (net : Request → FetchResult) (now now' : DateTime)
    (st : BLSState) (sy ey sy' ey' : Option Int)
    (hcat : cfg.series_metadata ≠ []) :
    (is_cache_valid st now = true → fetch_all_series cfg net now st sy ey = (st, []))
    ∧ ((fetch_all_series cfg net now st sy ey).2 = [] → is_cache_valid st now = true)
    ∧ (is_cache_valid st now = true ↔
        st.cache ≠ [] ∧ ∃ lf, st.last_fetched = some lf ∧ now.t - lf.t < cache_ttl)
    ∧ (is_cache_valid st now = false →
        (fetch_all_series cfg net now st sy ey).1.cache ≠ [] →
        now'.t - now.t < cache_ttl →
        (fetch_all_series cfg net now'
          (fetch_all_series cfg net now st sy ey).1 sy' ey').2 = []) := by
  refine ⟨fetch_all_series_valid cfg net now st sy ey, ?_,
    is_cache_valid_iff st now, ?_⟩
  · intro h2
    by_contra hv
    have h' : is_cache_valid st now = false := by
      cases hb : is_cache_valid st now
      · rfl
      · exact absurd hb hv
    rw [fetch_all_series_invalid cfg net now st sy ey h'] at h2
    have hids : cfg.series_metadata.map (fun p => p.1) ≠ [] := by
      simpa using hcat
    have hchunks := chunkList_ne_nil cfg.max_batch_size _ hids
    rw [fetchReqs] at h2
    exact hchunks (List.map_eq_nil_iff.mp h2)
  · intro h1 hcache httl
    rw [fetch_all_series_invalid cfg net now st sy ey h1] at hcache ⊢
    have hvalid : is_cache_valid
        { cache := (fetchReqs cfg now sy ey).foldl
            (fun c r => processChunk cfg.series_metadata c (net r)) st.cache,
          last_fetched := some now } now' = true := by
      rw [is_cache_valid_iff]
      exact ⟨hcache, now, rfl, httl⟩
    rw [fetch_all_series_valid _ _ _ _ _ _ hvalid]

/-- C1 witness: from a fresh client (invalid cache), a fetch against a
successful network leaves a non-empty cache, and a repeat call one minute
later issues zero outbound requests. -/
theorem fetch_all_series_cache_short_circuit_witness :
    (fetch_all_series (mkBLSClient none).1 demoNet ⟨60, 2024⟩
      (fetch_all_series (mkBLSClient none).1 demoNet ⟨0, 2024⟩
        (mkBLSClient none).2 none none).1 none none).2 = [] :=
  (fetch_all_series_cache_short_circuit (mkBLSClient none).1 demoNet
    ⟨0, 2024⟩ ⟨60, 2024⟩ (mkBLSClient none).2 none none none none
    (by decide)).2.2.2 (by decide) (by decide) (by decide)

theorem alGet_mem {β : Type} {d : List (String × β)} {k : String} {v : β}
    (h : alGet d k = some v) : ∃ k', (k', v) ∈ d ∧ (k' == k) = true := by
  unfold alGet at h
  cases hf : d.find? (fun p => p.1 == k) with
  | none => rw [hf] at h; simp at h
  | some p =>
    rw [hf] at h
    simp at h
    have hmem := List.mem_of_find?_eq_some hf
    have hkey := List.find?_some hf
    refine ⟨p.1, ?_, hkey⟩
    rw [← h]
    exact hmem

theorem abbrev_name_in_fips :
    (STATE_ABBREVIATIONS.all (fun p => (alGet STATE_FIPS p.2).isSome)) = true := by
  decide

theorem resolve_state_decomposed (s : String) :
    resolve_state s =
      ((matchAbbrev (pyStrip s)).orElse (fun _ =>
        ((matchFullName (pyStrip s)).orElse (fun _ => matchFips (pyStrip s))))) := by
  cases hab : alGet STATE_ABBREVIATIONS (pyUpper (pyStrip s)) with
  | none =>
    cases hfn : STATE_FIPS.find? (fun p => pyLower p.1 == pyLower (pyStrip s)) with
    | none =>
      cases hfp : alGet FIPS_TO_STATE (zfill 2 (pyStrip s)) with
      | none =>
        simp [resolve_state, matchAbbrev, matchFullName, matchFips, hab, hfn, hfp,
          Option.orElse]
      | some state =>
        simp [resolve_state, matchAbbrev, matchFullName, matchFips, hab, hfn, hfp,
          Option.orElse]
    | some p =>
      simp [resolve_state, matchAbbrev, matchFullName, matchFips, hab, hfn,
        Option.orElse]
  | some full =>
    have hsome : (alGet STATE_FIPS full).isSome = true := by
      obtain ⟨k', hmem, -⟩ := alGet_mem hab
      exact List.all_eq_true.mp abbrev_name_in_fips _ hmem
    cases hfips : alGet STATE_FIPS full with
    | none => rw [hfips] at hsome; simp at hsome
    | some fips => simp [resolve_state, matchAbbrev, hab, hfips, Option.orElse]

theorem resolve_state_table_agreement :
    (STATE_ABBREVIATIONS.all (fun p =>
      match alGet STATE_FIPS p.2 with
      | some fips => resolveAgreesAt p.1 p.2 fips
      | none => false)) = true := by
  decide

/-- C2: `resolve_state` tries, in order, the case-insensitive abbreviation
match, the case-insensitive full-name match, then the input zero-padded to two
digits as a FIPS code, returning the first success (`orElse` decomposition);
it returns `none` exactly when all three fail; for every state of the table,
the abbreviation, the full name, the FIPS code, lower-cased variants and
whitespace-padded variants all resolve to the identical `(fips, full_name)`
pair (`resolveAgreesAt`); and a FIPS code is zero-padded before lookup
(`"9"` resolves to Connecticut, FIPS `"09"`). -/
theorem resolve_state_spec (s : String) :
    (resolve_state s =
      ((matchAbbrev (pyStrip s)).orElse (fun _ =>
        ((matchFullName (pyStrip s)).orElse (fun _ => matchFips (pyStrip s))))))
    ∧ (resolve_state s = none ↔
        matchAbbrev (pyStrip s) = none ∧ matchFullName (pyStrip s) = none ∧
          matchFips (pyStrip s) = none)
    ∧ (STATE_ABBREVIATIONS.all (fun p =>
        match alGet STATE_FIPS p.2 with
        | some fips => resolveAgreesAt p.1 p.2 fips
        | none => false)) = true
    ∧ resolve_state "9" = some ("09", "Connecticut") := by
  refine ⟨resolve_state_decomposed s, ?_, resolve_state_table_agreement, by decide⟩
  rw [resolve_state_decomposed s]
  cases matchAbbrev (pyStrip s) <;>
    cases matchFullName (pyStrip s) <;>
    cases matchFips (pyStrip s) <;>
    simp [Option.orElse]

/-! ## On-demand (LAUS) path lemmas -/

theorem fetchLausSeries_transport (cfg : BLSConfig) (net : Request → FetchResult)
    (now : DateTime) (st : BLSState) (sid sname ek ev : String)
    (sy ey : Option Int) (m : String)
    (hmiss : ¬((alGet st.cache sid).isSome ∧ is_cache_valid st now = true))
    (hnet : ∀ r, net r = .transportError m) :
    fetchLausSeries cfg net now st sid sname ek ev sy ey =
      (st,
       [{ series_ids := [sid], start_year := (resolve_years now sy ey).1,
          end_year := (resolve_years now sy ey).2 }],
       [.err ("Request failed: " ++ m)]) := by
  simp only [fetchLausSeries, if_neg hmiss, hnet]

theorem fetchLausSeries_api_error (cfg : BLSConfig) (net : Request → FetchResult)
    (now : DateTime) (st : BLSState) (sid sname ek ev : String)
    (sy ey : Option Int) (status : Option String) (message : Option String)
    (series : List ApiSeries)
    (hmiss : ¬((alGet st.cache sid).isSome ∧ is_cache_valid st now = true))
    (hnet : ∀ r, net r = .response status message series)
    (hstatus : status ≠ some "REQUEST_SUCCEEDED") :
    fetchLausSeries cfg net now st sid sname ek ev sy ey =
      (st,
       [{ series_ids := [sid], start_year := (resolve_years now sy ey).1,
          end_year := (resolve_years now sy ey).2 }],
       [.err ("BLS API error: " ++ message.getD "unknown")]) := by
  simp only [fetchLausSeries, if_neg hmiss, hnet, if_pos hstatus]

theorem fetchLausSeries_frame (cfg : BLSConfig) (net : Request → FetchResult)
    (now : DateTime) (st : BLSState) (sid sname ek ev : String)
    (sy ey : Option Int) :
    (fetchLausSeries cfg net now st sid sname ek ev sy ey).1.last_fetched
      = st.last_fetched
    ∧ ((∃ m, OutItem.err m ∈ (fetchLausSeries cfg net now st sid sname ek ev sy ey).2.2) →
        (fetchLausSeries cfg net now st sid sname ek ev sy ey).1.cache = st.cache) := by
  unfold fetchLausSeries
  by_cases hhit : ((alGet st.cache sid).isSome ∧ is_cache_valid st now = true)
  · rw [if_pos hhit]
    exact ⟨rfl, fun _ => rfl⟩
  · rw [if_neg hhit]
    dsimp only
    cases hnet : net ⟨[sid], (resolve_years now sy ey).1, (resolve_years now sy ey).2⟩ with
    | transportError m =>
      exact ⟨rfl, fun _ => rfl⟩
    | response status message series =>
      dsimp only
      by_cases hstatus : status ≠ some "REQUEST_SUCCEEDED"
      · rw [if_pos hstatus]
        exact ⟨rfl, fun _ => rfl⟩
      · rw [if_neg hstatus]
        refine ⟨rfl, ?_⟩
        rintro ⟨m, hm⟩
        simp only [List.mem_map] at hm
        obtain ⟨r, -, hr⟩ := hm
        exact absurd hr (by simp)

/-- C3: `get_state_data` and `get_county_data` never raise and return a
one-element sequence holding a single error-shaped mapping on every failure:
a resolution failure returns the unknown-state error record (leaving the state
untouched and issuing no request); on the on-demand fetch path a transport
failure or a non-success API status each return the corresponding one-element
error record and leave the client state unchanged. -/
theorem get_data_soft_failure
    (cfg : BLSConfig) (net : Request → FetchResult) (now : DateTime)
    (st : BLSState) (state county cname measure : String)
    (sy ey : Option Int) (m : String) (status message : Option String)
    (series : List ApiSeries) :
    (resolve_state state = none →
      get_state_data cfg net now st state measure sy ey =
        (st, [], [.err ("Unknown state: '" ++ state ++
          "'. Use a state name, abbreviation, or FIPS code.")]))
    ∧ (∀ fips sname, resolve_state state = some (fips, sname) →
        ¬((alGet st.cache (build_state_series_id fips measure)).isSome ∧
            is_cache_valid st now = true) →
        (∀ r, net r = .transportError m) →
        (get_state_data cfg net now st state measure sy ey).2.2 =
          [.err ("Request failed: " ++ m)]
        ∧ (get_state_data cfg net now st state measure sy ey).1 = st)
    ∧ (∀ fips sname, resolve_state state = some (fips, sname) →
        ¬((alGet st.cache (build_state_series_id fips measure)).isSome ∧
            is_cache_valid st now = true) →
        (∀ r, net r = .response status message series) →
        status ≠ some "REQUEST_SUCCEEDED" →
        (get_state_data cfg net now st state measure sy ey).2.2 =
          [.err ("BLS API error: " ++ message.getD "unknown")]
        ∧ (get_state_data cfg net now st state measure sy ey).1 = st)
    ∧ (¬((alGet st.cache (build_county_series_id (zfill 5 (pyStrip county)) measure)).isSome ∧
            is_cache_valid st now = true) →
        (∀ r, net r = .transportError m) →
        (get_county_data cfg net now st county cname measure sy ey).2.2 =
          [.err ("Request failed: " ++ m)]
        ∧ (get_county_data cfg net now st county cname measure sy ey).1 = st)
    ∧ (¬((alGet st.cache (build_county_series_id (zfill 5 (pyStrip county)) measure)).isSome ∧
            is_cache_valid st now = true) →
        (∀ r, net r = .response status message series) →
        status ≠ some "REQUEST_SUCCEEDED" →
        (get_county_data cfg net now st county cname measure sy ey).2.2 =
          [.err ("BLS API error: " ++ message.getD "unknown")]
        ∧ (get_county_data cfg net now st county cname measure sy ey).1 = st) := by
  refine ⟨?_, ?_, ?_, ?_, ?_⟩
  · intro hres
    simp only [get_state_data, hres]
  · intro fips sname hres hmiss hnet
    simp only [get_state_data, hres]
    rw [fetchLausSeries_transport cfg net now st _ _ _ _ sy ey m hmiss hnet]
    exact ⟨rfl, rfl⟩
  · intro fips sname hres hmiss hnet hstatus
    simp only [get_state_data, hres]
    rw [fetchLausSeries_api_error cfg net now st _ _ _ _ sy ey status message series
      hmiss hnet hstatus]
    exact ⟨rfl, rfl⟩
  · intro hmiss hnet
    simp only [get_county_data]
    rw [fetchLausSeries_transport cfg net now st _ _ _ _ sy ey m hmiss hnet]
    exact ⟨rfl, rfl⟩
  · intro hmiss hnet hstatus
    simp only [get_county_data]
    rw [fetchLausSeries_api_error cfg net now st _ _ _ _ sy ey status message series
      hmiss hnet hstatus]
    exact ⟨rfl, rfl⟩

/-- C3 witness: `get_state_data "Ohio"` against an unreachable endpoint
returns the one-element `[{"error": "Request failed: ..."}]` sequence and
leaves the fresh client state unchanged. -/
theorem get_data_soft_failure_witness :
    (get_state_data (mkBLSClient none).1 failNet ⟨0, 2024⟩ (mkBLSClient none).2
      "Ohio" "03" none none).2.2 = [.err "Request failed: connection refused"]
    ∧ (get_state_data (mkBLSClient none).1 failNet ⟨0, 2024⟩ (mkBLSClient none).2
        "Ohio" "03" none none).1 = (mkBLSClient none).2 :=
  (get_data_soft_failure (mkBLSClient none).1 failNet ⟨0, 2024⟩ (mkBLSClient none).2
    "Ohio" "39049" "" "03" none none "connection refused" none none []).2.1
    "39" "Ohio" (by decide) (by decide) (fun r => rfl)

/-- C4 counterexample: from a fresh client with every chunk failing, the chunk
loop completes, stamps the last-fetched timestamp, and leaves the cache empty —
and then the immediately following `fetch_all_series` call (age `0 < TTL`)
issues outbound requests again, refuting "every subsequent `fetch_all_series`
call within the 24-hour TTL window issues no outbound requests". -/
theorem fetch_failed_chunks_retry_counterexample :
    ((fetch_all_series (mkBLSClient none).1 failNet ⟨0, 2024⟩
        (mkBLSClient none).2).1.last_fetched = some ⟨0, 2024⟩
    ∧ (fetch_all_series (mkBLSClient none).1 failNet ⟨0, 2024⟩
        (mkBLSClient none).2).1.cache = []
    ∧ (fetch_all_series (mkBLSClient none).1 failNet ⟨0, 2024⟩
        (fetch_all_series (mkBLSClient none).1 failNet ⟨0, 2024⟩
          (mkBLSClient none).2).1).2 ≠ []) := by
  decide

/-- C4 (amended): whenever `fetch_all_series` actually runs its chunk loop, it
stamps the last-fetched timestamp with the current time even if chunks failed;
and provided the resulting cache is non-empty, every subsequent call within
the TTL window issues zero outbound requests (failed chunks are not retried
before TTL expiry as long as at least one series is cached). -/
theorem fetch_stamps_even_on_failure
    (cfg : BLSConfig) (net : Request → FetchResult) (now now' : DateTime)
    (st : BLSState) (sy ey sy' ey' : Option Int)
    (h1 : is_cache_valid st now = false) :
    (fetch_all_series cfg net now st sy ey).1.last_fetched = some now
    ∧ ((fetch_all_series cfg net now st sy ey).1.cache ≠ [] →
        now'.t - now.t < cache_ttl →
        (fetch_all_series cfg net now'
          (fetch_all_series cfg net now st sy ey).1 sy' ey').2 = []) := by
  constructor
  · rw [fetch_all_series_invalid _ _ _ _ _ _ h1]
  · intro hc httl
    have hvalid : is_cache_valid (fetch_all_series cfg net now st sy ey).1 now' = true := by
      rw [is_cache_valid_iff]
      refine ⟨hc, now, ?_, httl⟩
      rw [fetch_all_series_invalid _ _ _ _ _ _ h1]
    rw [fetch_all_series_valid _ _ _ _ _ _ hvalid]

/-- C4 witness: a fresh-client fetch against a succeeding network stamps the
timestamp, and the cached/in-window repeat call issues no requests. -/
theorem fetch_stamps_even_on_failure_witness :
    (fetch_all_series (mkBLSClient none).1 demoNet ⟨0, 2024⟩
      (mkBLSClient none).2 none none).1.last_fetched = some ⟨0, 2024⟩
    ∧ ((fetch_all_series (mkBLSClient none).1 demoNet ⟨0, 2024⟩
          (mkBLSClient none).2 none none).1.cache ≠ [] →
        (⟨60, 2024⟩ : DateTime).t - (⟨0, 2024⟩ : DateTime).t < cache_ttl →
        (fetch_all_series (mkBLSClient none).1 demoNet ⟨60, 2024⟩
          (fetch_all_series (mkBLSClient none).1 demoNet ⟨0, 2024⟩
            (mkBLSClient none).2 none none).1 none none).2 = []) :=
  fetch_stamps_even_on_failure (mkBLSClient none).1 demoNet ⟨0, 2024⟩ ⟨60, 2024⟩
    (mkBLSClient none).2 none none none none (by decide)

set_option maxRecDepth 4000 in
/-- C5 (code bug): `search_series` raises `IndexError` when a matched series
has an EMPTY cached record list — one keyword search from a fresh client,
after the API successfully returns series `LNS14000000` with zero
observations, aborts with the exception instead of returning results (the
`[{}]` default in `self._cache.get(series_id, [{}])[0]` is dead code, so the
empty-list case is unguarded). -/
theorem search_series_index_error :
    (search_series (mkBLSClient none).1 emptyDataNet ⟨0, 2024⟩ (mkBLSClient none).2
      "Unemployment").2.2 = Except.error "IndexError: list index out of range" := by
  decide

/-- C6: a missing, empty or placeholder (`startswith "<"`) API key is treated
as absent, selecting the public v1 endpoint and batch size 25 (v2 and 50 when
a key is present); every request `fetch_all_series` issues carries at most
`max_batch_size` series ids; and with batch size 25 (no key) a 60-identifier
catalog is fetched in exactly three batches of sizes 25, 25, 10. -/
theorem access_mode_spec (env : Option String) :
    ((env.getD "" = "" ∨ pyStartsWith (env.getD "") "<" = true) →
      (mkBLSClient env).1.api_key = none ∧ (mkBLSClient env).1.max_batch_size = 25 ∧
        (mkBLSClient env).1.api_url = BLS_API_V1_URL)
    ∧ (env.getD "" ≠ "" → pyStartsWith (env.getD "") "<" = false →
        (mkBLSClient env).1.api_key = some (env.getD "") ∧
        (mkBLSClient env).1.max_batch_size = 50 ∧
        (mkBLSClient env).1.api_url = BLS_API_V2_URL)
    ∧ (∀ (cfg : BLSConfig) (net : Request → FetchResult) (now : DateTime)
        (st : BLSState) (sy ey : Option Int),
        ∀ r ∈ (fetch_all_series cfg net now st sy ey).2,
          r.series_ids.length ≤ cfg.max_batch_size)
    ∧ (∀ (cfg : BLSConfig) (net : Request → FetchResult) (now : DateTime)
        (st : BLSState) (sy ey : Option Int),
        cfg.max_batch_size = 25 → cfg.series_metadata.length = 60 →
        is_cache_valid st now = false →
        ((fetch_all_series cfg net now st sy ey).2.map (fun r => r.series_ids.length))
          = [25, 25, 10]) := by
  refine ⟨?_, ?_, ?_, ?_⟩
  · intro h
    have hcond : ¬(env.getD "" ≠ "" ∧ ¬ pyStartsWith (env.getD "") "<" = true) := by
      rcases h with h | h
      · intro hc; exact hc.1 h
      · intro hc; exact hc.2 h
    unfold mkBLSClient
    dsimp only
    rw [if_neg hcond]
    exact ⟨rfl, rfl, rfl⟩
  · intro h1 h2
    have hcond : (env.getD "" ≠ "" ∧ ¬ pyStartsWith (env.getD "") "<" = true) :=
      ⟨h1, by rw [h2]; exact Bool.false_ne_true⟩
    unfold mkBLSClient
    dsimp only
    rw [if_pos hcond]
    exact ⟨rfl, rfl, rfl⟩
  · intro cfg net now st sy ey r hr
    by_cases hvalid : is_cache_valid st now = true
    · rw [fetch_all_series_valid _ _ _ _ _ _ hvalid] at hr
      simp at hr
    · have h' : is_cache_valid st now = false := by
        cases hb : is_cache_valid st now
        · rfl
        · exact absurd hb hvalid
      rw [fetch_all_series_invalid _ _ _ _ _ _ h', fetchReqs] at hr
      simp only [List.mem_map] at hr
      obtain ⟨batch, hbatch, hreq⟩ := hr
      rw [← hreq]
      exact chunkList_length_le cfg.max_batch_size _ batch hbatch
  · intro cfg net now st sy ey hbs hcat h1
    rw [fetch_all_series_invalid _ _ _ _ _ _ h1, fetchReqs, hbs]
    have hlen : (cfg.series_metadata.map (fun p => p.1)).length = 60 := by
      simpa using hcat
    generalize hids : cfg.series_metadata.map (fun p => p.1) = ids at hlen
    have h25 : (0 : Nat) < 25 := by norm_num
    have hne1 : ids ≠ [] := by
      intro h; rw [h] at hlen; simp at hlen
    rw [chunkList_step h25 ids hne1]
    have hdrop1 : (ids.drop 25).length = 35 := by simp [hlen]
    have hne2 : ids.drop 25 ≠ [] := by
      intro h; rw [h] at hdrop1; simp at hdrop1
    rw [chunkList_step h25 _ hne2]
    have hdrop2 : ((ids.drop 25).drop 25).length = 10 := by simp [hlen]
    have hne3 : (ids.drop 25).drop 25 ≠ [] := by
      intro h; rw [h] at hdrop2; simp at hdrop2
    rw [chunkList_step h25 _ hne3]
    have hdrop3 : (((ids.drop 25).drop 25).drop 25).length = 0 := by simp [hlen]
    have hnil : ((ids.drop 25).drop 25).drop 25 = [] :=
      List.eq_nil_of_length_eq_zero hdrop3
    rw [hnil]
    simp [hlen]
    rfl

/-- C6 witness: a placeholder key (`"<BLS_API_KEY>"`) is treated as absent:
no key, batch size 25, public v1 endpoint. -/
theorem access_mode_spec_witness :
    (mkBLSClient (some "<BLS_API_KEY>")).1.api_key = none
    ∧ (mkBLSClient (some "<BLS_API_KEY>")).1.max_batch_size = 25
    ∧ (mkBLSClient (some "<BLS_API_KEY>")).1.api_url = BLS_API_V1_URL :=
  (access_mode_spec (some "<BLS_API_KEY>")).1 (Or.inr (by decide))

/-- C7: a chunk whose request fails in transport or returns a non-success
status leaves the cache exactly as it was (the loop just moves on); the final
cache of a `fetch_all_series` run is the initial cache with all successful
chunks' series stored in order; a series id not returned by any successful
chunk keeps exactly its previous cache entry; and a series returned by a
successful chunk (and not again later) has its cache entry replaced wholesale
by the newly decoded records, regardless of what was cached before. -/
theorem fetch_chunk_isolation
    (cfg : BLSConfig) (net : Request → FetchResult) (now : DateTime)
    (st : BLSState) (sy ey : Option Int) (meta : List (String × String))
    (c : List (String × List SeriesRecord)) (m : String)
    (status message : Option String) (series : List ApiSeries) :
    (processChunk meta c (.transportError m) = c)
    ∧ (status ≠ some "REQUEST_SUCCEEDED" →
        processChunk meta c (.response status message series) = c)
    ∧ ((fetch_all_series cfg net now st sy ey).1.cache
        = applyAll cfg.series_metadata st.cache (respondedSeries cfg net now st sy ey))
    ∧ (∀ sid, sid ∉ (respondedSeries cfg net now st sy ey).map (fun q => q.seriesID) →
        alGet (fetch_all_series cfg net now st sy ey).1.cache sid = alGet st.cache sid)
    ∧ (∀ l1 s2 l2, respondedSeries cfg net now st sy ey = l1 ++ s2 :: l2 →
        s2.seriesID ∉ l2.map (fun q => q.seriesID) →
        alGet (fetch_all_series cfg net now st sy ey).1.cache s2.seriesID
          = some (s2.data.map (decodeItem cfg.series_metadata s2.seriesID))) := by
  refine ⟨rfl, ?_, fetch_all_series_cache_eq cfg net now st sy ey, ?_, ?_⟩
  · intro h
    simp [processChunk, h]
  · intro sid hnot
    rw [fetch_all_series_cache_eq]
    exact alGet_applyAll_not_mem _ sid _ _ hnot
  · intro l1 s2 l2 heq hnot
    rw [fetch_all_series_cache_eq, heq]
    exact alGet_applyAll_last _ _ l1 l2 s2 hnot

/-- C7 witness: a chunk answered with a non-success status is skipped: the
cache (here empty) is untouched. -/
theorem fetch_chunk_isolation_witness :
    processChunk BLS_SERIES [] (.response (some "REQUEST_NOT_PROCESSED") none
      [{ seriesID := "LNS14000000", data := [] }]) = [] :=
  (fetch_chunk_isolation (mkBLSClient none).1 failNet ⟨0, 2024⟩ (mkBLSClient none).2
    none none BLS_SERIES [] "m" (some "REQUEST_NOT_PROCESSED") none
    [{ seriesID := "LNS14000000", data := [] }]).2.1 (by decide)

/-- C8: `get_series` first triggers `fetch_all_series` with default years
(same resulting state and requests), then returns exactly the post-fetch
cached sequence for the id — the cached records when present, the empty
sequence when absent (never an error value, by the result type); with a valid
cache the fetch no-ops, so the pre-call cache entry is returned verbatim. -/
theorem get_series_spec (cfg : BLSConfig) (net : Request → FetchResult)
    (now : DateTime) (st : BLSState) (sid : String) :
    ((get_series cfg net now st sid).1 = (fetch_all_series cfg net now st).1
    ∧ (get_series cfg net now st sid).2.1 = (fetch_all_series cfg net now st).2
    ∧ (get_series cfg net now st sid).2.2
        = (alGet (fetch_all_series cfg net now st).1.cache sid).getD [])
    ∧ (∀ rs, alGet (fetch_all_series cfg net now st).1.cache sid = some rs →
        (get_series cfg net now st sid).2.2 = rs)
    ∧ (alGet (fetch_all_series cfg net now st).1.cache sid = none →
        (get_series cfg net now st sid).2.2 = [])
    ∧ (is_cache_valid st now = true →
        (∀ rs, alGet st.cache sid = some rs → (get_series cfg net now st sid).2.2 = rs)
        ∧ (alGet st.cache sid = none → (get_series cfg net now st sid).2.2 = [])) := by
  refine ⟨⟨rfl, rfl, rfl⟩, ?_, ?_, ?_⟩
  · intro rs h
    show (alGet (fetch_all_series cfg net now st).1.cache sid).getD [] = rs
    rw [h]
    rfl
  · intro h
    show (alGet (fetch_all_series cfg net now st).1.cache sid).getD [] = []
    rw [h]
    rfl
  · intro hvalid
    constructor
    · intro rs h
      show (alGet (fetch_all_series cfg net now st).1.cache sid).getD [] = rs
      rw [fetch_all_series_valid cfg net now st none none hvalid, h]
      rfl
    · intro h
      show (alGet (fetch_all_series cfg net now st).1.cache sid).getD [] = []
      rw [fetch_all_series_valid cfg net now st none none hvalid, h]
      rfl

/-- C8 witness: after a successful fetch from a fresh client, `get_series`
returns exactly the decoded cached record for `LNS14000000`. -/
theorem get_series_spec_witness :
    (get_series (mkBLSClient none).1 demoNet ⟨0, 2024⟩ (mkBLSClient none).2
      "LNS14000000").2.2 =
      [{ series_id := "LNS14000000", series_name := "Unemployment Rate",
         year := "2023", period := "M12", value := "3.7", footnotes := "",
         extra := none }] :=
  (get_series_spec (mkBLSClient none).1 demoNet ⟨0, 2024⟩ (mkBLSClient none).2
    "LNS14000000").2.1 _ (by decide)

/-- C9: every `get_state_data` / `get_county_data` call leaves the bulk
last-fetched timestamp unchanged, and every such call whose result contains an
error-shaped record also leaves the cache mapping unchanged. -/
theorem get_data_frame
    (cfg : BLSConfig) (net : Request → FetchResult) (now : DateTime)
    (st : BLSState) (state county cname measure : String) (sy ey : Option Int) :
    (get_state_data cfg net now st state measure sy ey).1.last_fetched = st.last_fetched
    ∧ ((∃ m, OutItem.err m ∈ (get_state_data cfg net now st state measure sy ey).2.2) →
        (get_state_data cfg net now st state measure sy ey).1.cache = st.cache)
    ∧ (get_county_data cfg net now st county cname measure sy ey).1.last_fetched
        = st.last_fetched
    ∧ ((∃ m, OutItem.err m ∈ (get_county_data cfg net now st county cname measure sy ey).2.2) →
        (get_county_data cfg net now st county cname measure sy ey).1.cache = st.cache) := by
  have hs :
      (get_state_data cfg net now st state measure sy ey).1.last_fetched = st.last_fetched
      ∧ ((∃ m, OutItem.err m ∈ (get_state_data cfg net now st state measure sy ey).2.2) →
          (get_state_data cfg net now st state measure sy ey).1.cache = st.cache) := by
    cases hres : resolve_state state with
    | none => simp [get_state_data, hres]
    | some p =>
      obtain ⟨fips, sname⟩ := p
      simp only [get_state_data, hres]
      exact fetchLausSeries_frame cfg net now st _ _ _ _ sy ey
  refine ⟨hs.1, hs.2, ?_, ?_⟩
  · simp only [get_county_data]
    exact (fetchLausSeries_frame cfg net now st _ _ _ _ sy ey).1
  · simp only [get_county_data]
    exact (fetchLausSeries_frame cfg net now st _ _ _ _ sy ey).2

/-- C9 witness: the erroring `get_state_data "Ohio"` call leaves the fresh
client cache unchanged. -/
theorem get_data_frame_witness :
    (get_state_data (mkBLSClient none).1 failNet ⟨0, 2024⟩ (mkBLSClient none).2
      "Ohio" "03" none none).1.cache = (mkBLSClient none).2.cache :=
  (get_data_frame (mkBLSClient none).1 failNet ⟨0, 2024⟩ (mkBLSClient none).2
    "Ohio" "39049" "" "03" none none).2.1
    ⟨"Request failed: connection refused", by decide⟩

/-- C10: if a `fetch_all_series` run leaves the cache empty (every chunk
failed), then `is_cache_valid` is false immediately afterwards, even though
the run (if it fetched at all) refreshed the timestamp; hence the very next
`fetch_all_series` call issues outbound requests again rather than waiting for
TTL expiry. -/
theorem fetch_empty_cache_invalid
    (cfg : BLSConfig) (net : Request → FetchResult) (now now' : DateTime)
    (st : BLSState) (sy ey sy' ey' : Option Int)
    (hempty : (fetch_all_series cfg net now st sy ey).1.cache = [])
    (hcat : cfg.series_metadata ≠ []) :
    is_cache_valid (fetch_all_series cfg net now st sy ey).1 now' = false
    ∧ (is_cache_valid st now = false →
        (fetch_all_series cfg net now st sy ey).1.last_fetched = some now)
    ∧ (fetch_all_series cfg net now'
        (fetch_all_series cfg net now st sy ey).1 sy' ey').2 ≠ [] := by
  have hinv : is_cache_valid (fetch_all_series cfg net now st sy ey).1 now' = false := by
    cases hb : is_cache_valid (fetch_all_series cfg net now st sy ey).1 now' with
    | false => rfl
    | true =>
      obtain ⟨hne, -⟩ := (is_cache_valid_iff _ _).mp hb
      exact absurd hempty hne
  refine ⟨hinv, ?_, ?_⟩
  · intro h1
    rw [fetch_all_series_invalid _ _ _ _ _ _ h1]
  · rw [fetch_all_series_invalid _ _ _ _ _ _ hinv]
    intro h2
    have hids : cfg.series_metadata.map (fun p => p.1) ≠ [] := by simpa using hcat
    have hchunks := chunkList_ne_nil cfg.max_batch_size _ hids
    rw [fetchReqs] at h2
    exact hchunks (List.map_eq_nil_iff.mp h2)

/-- C10 witness: the all-chunks-failed fresh-client fetch leaves an empty,
invalid cache with a fresh timestamp, and the repeat call a minute later
issues requests again. -/
theorem fetch_empty_cache_invalid_witness :
    is_cache_valid (fetch_all_series (mkBLSClient none).1 failNet ⟨0, 2024⟩
      (mkBLSClient none).2 none none).1 ⟨60, 2024⟩ = false
    ∧ (is_cache_valid (mkBLSClient none).2 ⟨0, 2024⟩ = false →
        (fetch_all_series (mkBLSClient none).1 failNet ⟨0, 2024⟩
          (mkBLSClient none).2 none none).1.last_fetched = some ⟨0, 2024⟩)
    ∧ (fetch_all_series (mkBLSClient none).1 failNet ⟨60, 2024⟩
        (fetch_all_series (mkBLSClient none).1 failNet ⟨0, 2024⟩
          (mkBLSClient none).2 none none).1 none none).2 ≠ [] :=
  fetch_empty_cache_invalid (mkBLSClient none).1 failNet ⟨0, 2024⟩ ⟨60, 2024⟩
    (mkBLSClient none).2 none none none none (by decide) (by decide)

end BLS
